import Mathlib

/-!
Verification of the diversified mutual-fund recommendation pipeline in
`backend/app/diversified_portfolio_system.py` (class `DiversifiedMutualFundSystem`).

The pipeline is embedded shallowly:
* a pandas DataFrame row becomes a `Fund` record; a DataFrame becomes a `List Fund`;
* Python floats become `ℚ`;
* the trained regression models are opaque (`predict(features) -> float` may raise),
  embedded as a parameter `Nat → Fund → Option ℚ` (per-horizon, `none` models a raised
  exception inside `predict_fund_returns`);
* the pandas sample standard deviation `Series.std()` involves a square root, which
  leaves `ℚ`; it is abstracted as a parameter `List ℚ → ℚ` applied to the column values;
* Python exceptions escaping a function become `Except PyError`;
* the row filters of `get_diversified_recommendations` (source lines 280-308) are
  recorded in an execution-order trace, so that claims about *when* an error is raised
  relative to the filtering steps can be stated.
-/

/-- Exceptions that can escape the pipeline: `ValueError` for a missing horizon model
(source line 277) and `KeyError` for an unknown risk-tolerance label
(source line 295, `risk_mapping[risk_tolerance]`). -/
inductive PyError
  | valueError (horizon : Nat)
  | keyError (label : String)
deriving DecidableEq

/-- One mutual-fund record: a row of `self.df` with the columns the core pipeline reads.
`sub_categories` lists the names of the one-hot `sub_category_*` columns that are true
for this fund. Historical returns may be missing (`NaN` becomes `none`). -/
structure Fund where
  scheme_name : String
  amc_name : String
  category_Equity : Bool
  category_Hybrid : Bool
  category_Debt : Bool
  category_Other : Bool
  sub_categories : List String
  min_sip : ℚ
  min_lumpsum : ℚ
  risk_level : ℤ
  return_1yr : Option ℚ
  return_3yr : Option ℚ
  return_5yr : Option ℚ
  expense_ratio : ℚ
  fund_size : ℚ
  fund_age : ℚ
  rating : ℚ
  risk_adjusted_score : ℚ
  stability_score : ℚ
  cost_efficiency : ℚ
deriving DecidableEq

/-- A candidate row after the prediction and scoring columns have been added
(`df_with_predictions`, source lines 331-349).  The two allocation columns are
added only by `select_diversified_pair` (lines 407-408), hence `Option`. -/
structure Scored where
  fund : Fund
  predicted_return : ℚ
  comprehensive_score : ℚ
  suggested_allocation : Option ℚ := none
  allocation_percentage : Option ℚ := none
deriving DecidableEq

/-- The per-fund entry of the final plan (source lines 472-488).  Display formatting
(`f"{...:.2f}%"` etc.) is pure rendering and is dropped; the underlying values are kept. -/
structure FundInfo where
  rank : Nat
  scheme_name : String
  amc_name : String
  predicted_return : ℚ
  actual_historical_return : Option ℚ
  risk_level : ℤ
  expense_ratio : ℚ
  rating : ℚ
  suggested_allocation : ℚ
  allocation_percentage : ℚ
  min_sip : ℚ
  min_lumpsum : ℚ
  comprehensive_score : ℚ
  fund_size : ℚ
  fund_age : ℚ
deriving DecidableEq

/-- Result of `generate_investment_plan` (source lines 450-502).  On the error path the
source sets `'recommendations': None`, embedded as `none`.  The static
`investment_summary` and the `diversification_analysis` rendering are dropped. -/
structure InvestmentPlan where
  status : String
  message : String
  recommendations : Option (List FundInfo)
deriving DecidableEq

/-- The system state `self` as the pipeline reads it: the loaded universe `self.df`,
the keys of `self.models` (which horizons have a trained model), the opaque per-horizon
predictor (`predict_fund_returns`, which may raise), and the opaque pandas sample
standard deviation used on the `fund_size` column. -/
structure SystemCtx where
  df : List Fund
  horizons : List Nat
  predict : Nat → Fund → Option ℚ
  sizeStd : List ℚ → ℚ

/-- Column access `fund[f'return_{horizon}yr']` for the three return columns. -/
def getReturn (f : Fund) (horizon : Nat) : Option ℚ :=
  if horizon = 1 then f.return_1yr
  else if horizon = 3 then f.return_3yr
  else if horizon = 5 then f.return_5yr
  else none

/-- The `risk_mapping` dict (source lines 289-293); `none` models the `KeyError`
raised by `risk_mapping[risk_tolerance]` on an unknown label. -/
def risk_mapping (label : String) : Option (ℤ × ℤ) :=
  if label = "conservative" then some (1, 3)
  else if label = "moderate" then some (3, 5)
  else if label = "aggressive" then some (5, 6)
  else none

/-- Affordability filter (source lines 283-286): keep a fund if half the investment
amount covers its minimum SIP or its minimum lumpsum. -/
def affordFilter (investment_amount : ℚ) (df : List Fund) : List Fund :=
  df.filter (fun f =>
    decide (f.min_sip ≤ investment_amount / 2) || decide (f.min_lumpsum ≤ investment_amount / 2))

/-- Risk-band filter (source lines 296-299): keep a fund whose risk level lies in the
inclusive range. -/
def riskFilter (min_risk max_risk : ℤ) (df : List Fund) : List Fund :=
  df.filter (fun f => decide (min_risk ≤ f.risk_level) && decide (f.risk_level ≤ max_risk))

/-- The main-category one-hot columns present in the dataset (`category_{name}`). -/
def categoryColumns : List String := ["Equity", "Hybrid", "Debt", "Other"]

/-- Column read `fund[f'category_{c}']` for `c ∈ categoryColumns`. -/
def getCategoryFlag (f : Fund) (c : String) : Bool :=
  if c = "Equity" then f.category_Equity
  else if c = "Hybrid" then f.category_Hybrid
  else if c = "Debt" then f.category_Debt
  else f.category_Other

/-- Category-preference filter (source lines 302-305): applied only when a preference
is given and its `category_{name}` column exists; otherwise a no-op.  (Python's
`if category_preference:` treats the empty string as falsy; `""` is not a column name,
so the no-op branch coincides.) -/
def applyCategoryFilter (category_preference : Option String) (df : List Fund) : List Fund :=
  match category_preference with
  | none => df
  | some c => if c ∈ categoryColumns then df.filter (fun f => getCategoryFlag f c) else df

/-- Completeness filter `df_filtered.dropna(subset=[target_col])` (source line 308). -/
def completenessFilter (horizon : Nat) (df : List Fund) : List Fund :=
  df.filter (fun f => (getReturn f horizon).isSome)

/-- The candidate set produced by the four successive narrowing steps of
`get_diversified_recommendations` (source lines 280-308), for an already-resolved
risk range. -/
def candidateSet (df : List Fund) (investment_amount : ℚ) (horizon : Nat)
    (min_risk max_risk : ℤ) (category_preference : Option String) : List Fund :=
  completenessFilter horizon
    (applyCategoryFilter category_preference
      (riskFilter min_risk max_risk
        (affordFilter investment_amount df)))

/-- The row-filtering operations of source lines 283-308, in execution order. -/
inductive FilterStage
  | afford
  | risk
  | category
  | completeness
deriving DecidableEq

/-- Filtering portion of `get_diversified_recommendations` (source lines 280-308),
instrumented with the execution-order trace of row-filtering operations performed.
The affordability filter (line 283) runs first; the `risk_mapping[risk_tolerance]`
lookup (line 295) happens after it, so on an unknown label the `KeyError` is raised
with exactly the affordability filter already applied. -/
def filterCandidates (df : List Fund) (investment_amount : ℚ) (horizon : Nat)
    (risk_tolerance : String) (category_preference : Option String) :
    List FilterStage × Except PyError (List Fund) :=
  match risk_mapping risk_tolerance with
  | none => ([FilterStage.afford], Except.error (PyError.keyError risk_tolerance))
  | some (min_risk, max_risk) =>
    ([FilterStage.afford, FilterStage.risk] ++
       (match category_preference with
        | some c => if c ∈ categoryColumns then [FilterStage.category] else []
        | none => []) ++
       [FilterStage.completeness],
     Except.ok (candidateSet df investment_amount horizon min_risk max_risk category_preference))

/-- The scoring weights and formula of source lines 335-349. -/
def comprehensive_score_of (predicted_return risk_adjusted_score stability_score
    cost_efficiency rating : ℚ) : ℚ :=
  0.40 * predicted_return + 0.20 * risk_adjusted_score + 0.15 * stability_score
    + 0.15 * cost_efficiency + 0.10 * rating

/-- Prediction loop plus score columns (source lines 316-349): each candidate whose
prediction raises is skipped (`except ... continue`); the survivors carry their
predicted return and comprehensive score. -/
def scoreCandidates (predict : Fund → Option ℚ) (df_filtered : List Fund) : List Scored :=
  df_filtered.filterMap (fun f =>
    (predict f).map (fun p =>
      { fund := f
        predicted_return := p
        comprehensive_score :=
          comprehensive_score_of p f.risk_adjusted_score f.stability_score
            f.cost_efficiency f.rating }))

/-- Stable descending insertion used to model `DataFrame.nlargest`: a later row is
placed after every already-placed row whose score is at least as large. -/
def insertDesc (x : Scored) : List Scored → List Scored
  | [] => [x]
  | y :: ys =>
    if y.comprehensive_score < x.comprehensive_score then x :: y :: ys
    else y :: insertDesc x ys

/-- Model of `df_with_predictions.nlargest(top_n, 'comprehensive_score')`
(source line 352): stable sort descending by score (ties keep first occurrence,
pandas `keep='first'`), then take the first `top_n` rows. -/
def nlargestByScore (top_n : Nat) (df : List Scored) : List Scored :=
  (df.foldl (fun acc x => insertDesc x acc) []).take top_n

/-- Model of `np.argmax` (source line 396): index of the first occurrence of the
maximum value; numpy returns 0 on concrete inputs of length ≥ 1, and the dead
empty case is mapped to 0. -/
def np_argmax : List ℚ → Nat
  | [] => 0
  | [_] => 0
  | x :: y :: rest =>
    if x < (y :: rest).getD (np_argmax (y :: rest)) 0 then np_argmax (y :: rest) + 1 else 0

/-- The main-category scan of `calculate_category_difference` (source lines 415-424):
the loop overwrites `fund_main` for every true flag in the order
Equity, Hybrid, Debt, Other, so the last true flag wins. -/
def mainCategory (f : Fund) : Option String :=
  if f.category_Other then some "category_Other"
  else if f.category_Debt then some "category_Debt"
  else if f.category_Hybrid then some "category_Hybrid"
  else if f.category_Equity then some "category_Equity"
  else none

/-- `calculate_category_difference` (source lines 412-440): 1.0 for different main
categories, else 0.5 when the true sub-category flag sets are disjoint, else 0.0. -/
def calculate_category_difference (fund1 fund2 : Fund) : ℚ :=
  if mainCategory fund1 ≠ mainCategory fund2 then 1
  else if fund1.sub_categories.all (fun c => decide (c ∉ fund2.sub_categories)) then 0.5
  else 0

/-- `risk_diff` (source line 376): absolute risk-level difference. -/
def risk_diff (fund best_fund : Fund) : ℚ :=
  |(fund.risk_level : ℚ) - (best_fund.risk_level : ℚ)|

/-- `amc_diff` (source line 378): 1 when the AMC names differ, else 0. -/
def amc_diff (fund best_fund : Fund) : ℚ :=
  if fund.amc_name ≠ best_fund.amc_name then 1 else 0

/-- `size_diff_norm` (source lines 379-382): absolute fund-size difference divided by
the shortlist-wide size standard deviation plus epsilon 0.001, clamped to at most 1. -/
def size_diff_norm (sd : ℚ) (fund best_fund : Fund) : ℚ :=
  min (|fund.fund_size - best_fund.fund_size| / (sd + 0.001)) 1

/-- `div_score` (source lines 385-390): the combined diversification score of a
remaining fund against the best fund, given the shortlist size standard deviation. -/
def div_score (sd : ℚ) (fund best_fund : Fund) : ℚ :=
  0.3 * risk_diff fund best_fund
    + 0.3 * calculate_category_difference fund best_fund
    + 0.2 * amc_diff fund best_fund
    + 0.2 * size_diff_norm sd fund best_fund

/-- The standard deviation `top_funds['fund_size'].std()` of source line 382, over the
whole shortlist (best fund included), via the abstracted `std`. -/
def shortlistStd (stdFn : List ℚ → ℚ) (top_funds : List Scored) : ℚ :=
  stdFn (top_funds.map (fun t => t.fund.fund_size))

/-- Allocation tagging of source lines 406-408: set `suggested_allocation` to half the
investment amount and `allocation_percentage` to 50.0. -/
def allocate (investment_amount : ℚ) (s : Scored) : Scored :=
  { s with suggested_allocation := some (investment_amount / 2)
           allocation_percentage := some (50 : ℚ) }

/-- `select_diversified_pair` (source lines 359-410): shortlists of size < 2 are
returned unchanged; otherwise the first (best) fund is kept and the remaining fund
with the first-maximal diversification score is picked, and both rows get the
allocation columns. -/
def select_diversified_pair (stdFn : List ℚ → ℚ) (top_funds : List Scored)
    (investment_amount : ℚ) : List Scored :=
  if top_funds.length < 2 then top_funds
  else
    match top_funds with
    | [] => top_funds
    | best_fund :: remaining_funds =>
      let sd := shortlistStd stdFn top_funds
      let diversification_scores :=
        remaining_funds.map (fun f => div_score sd f.fund best_fund.fund)
      let selected_funds :=
        if diversification_scores.isEmpty then top_funds.take 2
        else [best_fund,
              remaining_funds.getD (np_argmax diversification_scores) best_fund]
      selected_funds.map (allocate investment_amount)

/-- Error message of source line 311. -/
def insufficientFundsMsg : String :=
  "Insufficient funds match your criteria. Please adjust preferences."

/-- Error message of source line 328. -/
def predictionFailureMsg : String :=
  "Unable to generate predictions. Please try different criteria."

/-- Success message of source line 357. -/
def selectedMsg (n : Nat) : String :=
  "Selected top 2 diversified funds from " ++ toString n ++ " eligible options."

/-- `get_diversified_recommendations` (source lines 261-357): model-availability check,
filtering, per-fund prediction with skip-on-error, scoring, top-N shortlist, and
diversified pair selection.  An `Except.ok ([], msg)` models the
`return pd.DataFrame(), msg` early exits of lines 311 and 328. -/
def get_diversified_recommendations (ctx : SystemCtx) (investment_amount : ℚ)
    (horizon : Nat) (risk_tolerance : String) (category_preference : Option String)
    (top_n : Nat) : Except PyError (List Scored × String) :=
  if horizon ∈ ctx.horizons then
    match (filterCandidates ctx.df investment_amount horizon risk_tolerance
             category_preference).2 with
    | Except.error e => Except.error e
    | Except.ok df_filtered =>
      if df_filtered.length < 2 then Except.ok ([], insufficientFundsMsg)
      else
        if (scoreCandidates (ctx.predict horizon) df_filtered).length < 2 then
          Except.ok ([], predictionFailureMsg)
        else
          Except.ok (select_diversified_pair ctx.sizeStd
                       (nlargestByScore top_n (scoreCandidates (ctx.predict horizon) df_filtered))
                       investment_amount,
                     selectedMsg df_filtered.length)
  else Except.error (PyError.valueError horizon)

/-- One `fund_info` entry of source lines 472-488, with rank starting at 1. -/
def mkFundInfo (rank : Nat) (horizon : Nat) (s : Scored) : FundInfo :=
  { rank := rank
    scheme_name := s.fund.scheme_name
    amc_name := s.fund.amc_name
    predicted_return := s.predicted_return
    actual_historical_return := getReturn s.fund horizon
    risk_level := s.fund.risk_level
    expense_ratio := s.fund.expense_ratio
    rating := s.fund.rating
    suggested_allocation := s.suggested_allocation.getD 0
    allocation_percentage := s.allocation_percentage.getD 0
    min_sip := s.fund.min_sip
    min_lumpsum := s.fund.min_lumpsum
    comprehensive_score := s.comprehensive_score
    fund_size := s.fund.fund_size
    fund_age := s.fund.fund_age }

/-- The `for idx, (_, fund) in enumerate(recommendations.iterrows(), 1)` loop of
source line 471, carrying the 1-based rank. -/
def buildFundInfos (horizon : Nat) (rank : Nat) : List Scored → List FundInfo
  | [] => []
  | s :: rest => mkFundInfo rank horizon s :: buildFundInfos horizon (rank + 1) rest

/-- `generate_investment_plan` (source lines 442-502): calls
`get_diversified_recommendations` with the default `top_n = 10`; an empty
recommendation frame becomes a structured error plan with `recommendations = none`,
otherwise a success plan listing the ranked funds. -/
def generate_investment_plan (ctx : SystemCtx) (investment_amount : ℚ) (horizon : Nat)
    (risk_tolerance : String) (category_preference : Option String) :
    Except PyError InvestmentPlan :=
  match get_diversified_recommendations ctx investment_amount horizon risk_tolerance
          category_preference 10 with
  | Except.error e => Except.error e
  | Except.ok (recommendations, message) =>
    if recommendations.isEmpty then
      Except.ok { status := "error", message := message, recommendations := none }
    else
      Except.ok { status := "success", message := message,
                  recommendations := some (buildFundInfos horizon 1 recommendations) }

/-! ### Properties of the embedded library operations -/

/-- `np_argmax` returns an index of a nonempty list. -/
theorem np_argmax_lt_length (xs : List ℚ) (h : xs ≠ []) : np_argmax xs < xs.length := by
  induction xs with
  | nil => simp at h
  | cons x rest ih =>
    cases rest with
    | nil => simp [np_argmax]
    | cons y t =>
      have ihb := ih (by simp)
      simp only [np_argmax]
      split
      · simpa [List.length_cons] using Nat.succ_lt_succ ihb
      · simp

/-- `np_argmax` points at a maximum value, and every strictly earlier entry is
strictly smaller (first-occurrence tie-breaking). -/
theorem np_argmax_spec (xs : List ℚ) :
    (∀ k, k < xs.length → xs.getD k 0 ≤ xs.getD (np_argmax xs) 0) ∧
    (∀ k, k < np_argmax xs → xs.getD k 0 < xs.getD (np_argmax xs) 0) := by
  induction xs with
  | nil =>
    refine ⟨?_, ?_⟩ <;> intro k hk <;> simp [np_argmax] at hk
  | cons x rest ih =>
    cases rest with
    | nil =>
      refine ⟨?_, ?_⟩ <;> intro k hk
      · have hk0 : k = 0 := by simpa using Nat.lt_one_iff.mp (by simpa using hk)
        subst hk0; simp [np_argmax]
      · simp [np_argmax] at hk
    | cons y t =>
      obtain ⟨ihmax, ihfirst⟩ := ih
      simp only [np_argmax]
      split
      · rename_i hlt
        refine ⟨?_, ?_⟩ <;> intro k hk
        · cases k with
          | zero => simpa using le_of_lt hlt
          | succ m =>
            have hm : m < (y :: t).length := by simpa using hk
            simpa using ihmax m hm
        · cases k with
          | zero => simpa using hlt
          | succ m =>
            have hm : m < np_argmax (y :: t) := Nat.lt_of_succ_lt_succ hk
            simpa using ihfirst m hm
      · rename_i hge
        push_neg at hge
        refine ⟨?_, ?_⟩ <;> intro k hk
        · cases k with
          | zero => simp
          | succ m =>
            have hm : m < (y :: t).length := by simpa using hk
            have h1 : (y :: t).getD m 0 ≤ (y :: t).getD (np_argmax (y :: t)) 0 := ihmax m hm
            simpa using h1.trans hge
        · simp at hk

/-- Inserting into the stable descending sort is a permutation with consing. -/
theorem insertDesc_perm (x : Scored) (l : List Scored) :
    List.Perm (insertDesc x l) (x :: l) := by
  induction l with
  | nil => exact List.Perm.refl _
  | cons y ys ih =>
    simp only [insertDesc]
    split
    · exact List.Perm.refl _
    · exact (ih.cons y).trans (List.Perm.swap x y ys)

/-- The insertion-sort fold is a permutation of the accumulator and the input. -/
theorem sortFold_perm (l acc : List Scored) :
    List.Perm (l.foldl (fun a x => insertDesc x a) acc) (acc ++ l) := by
  induction l generalizing acc with
  | nil => simp
  | cons x xs ih =>
    have h1 := ih (insertDesc x acc)
    have h2 : List.Perm (insertDesc x acc ++ xs) ((x :: acc) ++ xs) :=
      (insertDesc_perm x acc).append_right xs
    have h3 : List.Perm (acc ++ x :: xs) (x :: (acc ++ xs)) := List.perm_middle
    exact (h1.trans h2).trans h3.symm

/-- The shortlist is a permutation of a prefix selection: `nlargestByScore` applied to
`df` is `take top_n` of a permutation of `df`. -/
theorem nlargest_perm (df : List Scored) :
    List.Perm (df.foldl (fun a x => insertDesc x a) []) df := by
  simpa using sortFold_perm df []

/-- The funds carried by the scored candidates form a sublist of the input funds:
the prediction loop only drops rows. -/
theorem scoreCandidates_fund_sublist (pr : Fund → Option ℚ) (l : List Fund) :
    List.Sublist ((scoreCandidates pr l).map Scored.fund) l := by
  induction l with
  | nil => simp [scoreCandidates]
  | cons f fs ih =>
    simp only [scoreCandidates, List.filterMap_cons] at ih ⊢
    cases hp : pr f with
    | none => simpa [hp] using List.Sublist.cons f ih
    | some p => simpa [hp] using List.Sublist.cons₂ f ih

/-- The category filter only drops rows. -/
theorem applyCategoryFilter_sublist (cp : Option String) (l : List Fund) :
    List.Sublist (applyCategoryFilter cp l) l := by
  cases cp with
  | none => exact List.Sublist.refl _
  | some c =>
    simp only [applyCategoryFilter]
    split
    · exact List.filter_sublist _
    · exact List.Sublist.refl _

/-- The category filter preserves sublists. -/
theorem applyCategoryFilter_mono (cp : Option String) (l₁ l₂ : List Fund)
    (h : List.Sublist l₁ l₂) :
    List.Sublist (applyCategoryFilter cp l₁) (applyCategoryFilter cp l₂) := by
  cases cp with
  | none => exact h
  | some c =>
    simp only [applyCategoryFilter]
    split
    · exact h.filter _
    · exact h

/-- The candidate set is a sublist of the universe. -/
theorem candidateSet_sublist (df : List Fund) (investment_amount : ℚ) (horizon : Nat)
    (min_risk max_risk : ℤ) (cp : Option String) :
    List.Sublist (candidateSet df investment_amount horizon min_risk max_risk cp) df := by
  unfold candidateSet completenessFilter
  exact (List.filter_sublist _).trans
    ((applyCategoryFilter_sublist _ _).trans
      ((List.filter_sublist _).trans (List.filter_sublist _)))

/-- Explicit form of `select_diversified_pair` on a shortlist of size at least 2:
the best fund is kept and the first-argmax remaining fund is paired with it. -/
theorem select_pair_cons (stdFn : List ℚ → ℚ) (investment_amount : ℚ)
    (best : Scored) (rem : List Scored) (h : rem ≠ []) :
    select_diversified_pair stdFn (best :: rem) investment_amount =
      [allocate investment_amount best,
       allocate investment_amount
         (rem.getD
           (np_argmax (rem.map (fun f =>
             div_score (shortlistStd stdFn (best :: rem)) f.fund best.fund)))
           best)] := by
  have hpos : 0 < rem.length := List.length_pos.mpr h
  have hlen : ¬ (best :: rem).length < 2 := by
    simp only [List.length_cons]
    omega
  have hmapne : rem.map (fun f =>
      div_score (shortlistStd stdFn (best :: rem)) f.fund best.fund) ≠ [] := by
    simpa [List.map_eq_nil_iff] using h
  unfold select_diversified_pair
  rw [if_neg hlen]
  simp [List.isEmpty_iff, hmapne]

/-! ### Concrete fixtures used by witnesses and scenario claims -/

/-- Equity fund, AMC "X", risk 3 (scenario fund 1). -/
def fA : Fund :=
  { scheme_name := "Alpha", amc_name := "X"
    category_Equity := true, category_Hybrid := false
    category_Debt := false, category_Other := false
    sub_categories := ["sub_category_Large"]
    min_sip := 100, min_lumpsum := 100, risk_level := 3
    return_1yr := some 10, return_3yr := some 11, return_5yr := some 12
    expense_ratio := 1, fund_size := 100, fund_age := 5, rating := 3
    risk_adjusted_score := 1, stability_score := 1, cost_efficiency := 1 }

/-- Equity fund, AMC "X", risk 4 (scenario fund 2). -/
def fB : Fund :=
  { fA with scheme_name := "Beta", risk_level := 4 }

/-- Equity fund, AMC "Y", risk 5 (scenario fund 3). -/
def fC : Fund :=
  { fA with scheme_name := "Gamma", amc_name := "Y", risk_level := 5 }

/-- Scored candidate for `fA` under the constant predictor returning 5. -/
def sA : Scored :=
  { fund := fA, predicted_return := 5
    comprehensive_score :=
      comprehensive_score_of 5 fA.risk_adjusted_score fA.stability_score
        fA.cost_efficiency fA.rating }

/-- Scored candidate for `fB` under the constant predictor returning 5. -/
def sB : Scored :=
  { fund := fB, predicted_return := 5
    comprehensive_score :=
      comprehensive_score_of 5 fB.risk_adjusted_score fB.stability_score
        fB.cost_efficiency fB.rating }

/-- System context for the three-fund scenario: the scenario universe, all three
horizon models available, a constant predictor (all composite scores tie), and the
exact standard deviation of the identical fund sizes, which is 0. -/
def ctx9 : SystemCtx :=
  { df := [fA, fB, fC], horizons := [1, 3, 5]
    predict := fun _ _ => some 5, sizeStd := fun _ => 0 }

/-! ### Claims -/

/-- C1: for every shortlist of size ≥ 2 (written `best :: rem` with `rem ≠ []`) and
every investment amount, `select_diversified_pair` picks the head of the shortlist as
the best fund unconditionally, and as second fund picks a remaining fund whose
diversification score against the best fund is maximal, with every strictly earlier
remaining fund scoring strictly lower (ties broken by first occurrence in shortlist
order). -/
theorem c1_diversification_selector (stdFn : List ℚ → ℚ) (investment_amount : ℚ)
    (best : Scored) (rem : List Scored) (hrem : rem ≠ []) :
    ∃ j, ∃ hj : j < rem.length,
      select_diversified_pair stdFn (best :: rem) investment_amount =
        [allocate investment_amount best,
         allocate investment_amount (rem.get ⟨j, hj⟩)] ∧
      (∀ k, (hk : k < rem.length) →
        div_score (shortlistStd stdFn (best :: rem)) (rem.get ⟨k, hk⟩).fund best.fund ≤
          div_score (shortlistStd stdFn (best :: rem)) (rem.get ⟨j, hj⟩).fund best.fund) ∧
      (∀ k, (hk : k < j) →
        div_score (shortlistStd stdFn (best :: rem)) (rem.get ⟨k, hk.trans hj⟩).fund best.fund <
          div_score (shortlistStd stdFn (best :: rem)) (rem.get ⟨j, hj⟩).fund best.fund) := by
  have hscores :
      rem.map (fun f => div_score (shortlistStd stdFn (best :: rem)) f.fund best.fund) ≠ [] := by
    simpa [List.map_eq_nil_iff] using hrem
  set sd := shortlistStd stdFn (best :: rem) with hsd
  set scores := rem.map (fun f => div_score sd f.fund best.fund) with hscdef
  have hlen : scores.length = rem.length := List.length_map _ _
  have hj : np_argmax scores < rem.length := hlen ▸ np_argmax_lt_length scores hscores
  have hgetD : ∀ k, (hk : k < rem.length) →
      scores.getD k 0 = div_score sd (rem.get ⟨k, hk⟩).fund best.fund := by
    intro k hk
    have hk2 : k < scores.length := hlen ▸ hk
    rw [List.getD_eq_getElem scores 0 hk2]
    simp [hscdef]
  obtain ⟨hmax, hfirst⟩ := np_argmax_spec scores
  refine ⟨np_argmax scores, hj, ?_, ?_, ?_⟩
  · rw [select_pair_cons stdFn investment_amount best rem hrem]
    rw [List.getD_eq_getElem rem best hj]
    simp [hscdef, hsd]
  · intro k hk
    have h1 := hmax k (hlen ▸ hk)
    rwa [hgetD k hk, hgetD (np_argmax scores) hj] at h1
  · intro k hk
    have h1 := hfirst k hk
    rwa [hgetD k (hk.trans hj), hgetD (np_argmax scores) hj] at h1

/-- Witness for C1 at the concrete two-element shortlist `[sA, sB]`. -/
theorem c1_witness :
    ([sB] : List Scored) ≠ [] ∧
    (∃ j, ∃ hj : j < ([sB] : List Scored).length,
      select_diversified_pair (fun _ => 0) (sA :: [sB]) 1000 =
        [allocate 1000 sA, allocate 1000 (([sB] : List Scored).get ⟨j, hj⟩)] ∧
      (∀ k, (hk : k < ([sB] : List Scored).length) →
        div_score (shortlistStd (fun _ => 0) (sA :: [sB]))
            (([sB] : List Scored).get ⟨k, hk⟩).fund sA.fund ≤
          div_score (shortlistStd (fun _ => 0) (sA :: [sB]))
            (([sB] : List Scored).get ⟨j, hj⟩).fund sA.fund) ∧
      (∀ k, (hk : k < j) →
        div_score (shortlistStd (fun _ => 0) (sA :: [sB]))
            (([sB] : List Scored).get ⟨k, hk.trans hj⟩).fund sA.fund <
          div_score (shortlistStd (fun _ => 0) (sA :: [sB]))
            (([sB] : List Scored).get ⟨j, hj⟩).fund sA.fund)) :=
  ⟨by simp, c1_diversification_selector (fun _ => 0) 1000 sA [sB] (by simp)⟩

/-- C2: every scored candidate carries the comprehensive score
`0.40·predicted_return + 0.20·risk_adjusted_score + 0.15·stability_score +
0.15·cost_efficiency + 0.10·rating` of its own five inputs, and the weights sum to
exactly 1. -/
theorem c2_comprehensive_score (pr : Fund → Option ℚ) (df_filtered : List Fund)
    (s : Scored) (hs : s ∈ scoreCandidates pr df_filtered) :
    s.comprehensive_score =
      0.40 * s.predicted_return + 0.20 * s.fund.risk_adjusted_score
        + 0.15 * s.fund.stability_score + 0.15 * s.fund.cost_efficiency
        + 0.10 * s.fund.rating ∧
    (0.40 + 0.20 + 0.15 + 0.15 + 0.10 : ℚ) = 1 := by
  refine ⟨?_, by norm_num⟩
  obtain ⟨f, hf, hmap⟩ := List.mem_filterMap.mp hs
  obtain ⟨p, hp, hmk⟩ := Option.map_eq_some'.mp hmap
  subst hmk
  rfl

/-- Witness for C2: the scored candidate of `fA` under the constant predictor 4. -/
theorem c2_witness :
    ({ fund := fA, predicted_return := 4
       comprehensive_score :=
         comprehensive_score_of 4 fA.risk_adjusted_score fA.stability_score
           fA.cost_efficiency fA.rating } : Scored) ∈
        scoreCandidates (fun _ => some 4) [fA] ∧
    (({ fund := fA, predicted_return := 4
        comprehensive_score :=
          comprehensive_score_of 4 fA.risk_adjusted_score fA.stability_score
            fA.cost_efficiency fA.rating } : Scored).comprehensive_score =
       0.40 * ({ fund := fA, predicted_return := 4
                 comprehensive_score :=
                   comprehensive_score_of 4 fA.risk_adjusted_score fA.stability_score
                     fA.cost_efficiency fA.rating } : Scored).predicted_return
         + 0.20 * fA.risk_adjusted_score + 0.15 * fA.stability_score
         + 0.15 * fA.cost_efficiency + 0.10 * fA.rating ∧
     (0.40 + 0.20 + 0.15 + 0.15 + 0.10 : ℚ) = 1) :=
  ⟨List.mem_singleton.mpr rfl,
   c2_comprehensive_score (fun _ => some 4) [fA] _ (List.mem_singleton.mpr rfl)⟩

/-- C8: the diversification sub-scores `risk_diff`, `amc_diff` and `size_diff_norm`
are symmetric in the two funds, for any value of the shortlist size standard
deviation. -/
theorem c8_subscore_symmetry (f1 f2 : Fund) (sd : ℚ) :
    risk_diff f1 f2 = risk_diff f2 f1 ∧
    amc_diff f1 f2 = amc_diff f2 f1 ∧
    size_diff_norm sd f1 f2 = size_diff_norm sd f2 f1 := by
  refine ⟨?_, ?_, ?_⟩
  · unfold risk_diff
    exact abs_sub_comm _ _
  · unfold amc_diff
    by_cases h : f1.amc_name = f2.amc_name
    · simp [h]
    · simp [h, Ne.symm h]
  · unfold size_diff_norm
    rw [abs_sub_comm]

/-- A `getD` access within bounds is a member of the list. -/
theorem getD_mem_of_lt (l : List Scored) (d : Scored) (j : Nat) (hj : j < l.length) :
    l.getD j d ∈ l := by
  rw [List.getD_eq_getElem l d hj]
  exact List.getElem_mem hj

/-- C10: a shortlist with fewer than 2 rows is returned unchanged (no allocation
columns added); a shortlist with at least 2 rows yields exactly 2 rows, both drawn
from the input, each carrying both allocation columns. -/
theorem c10_selector_shape (stdFn : List ℚ → ℚ) (investment_amount : ℚ)
    (top_funds : List Scored) :
    (top_funds.length < 2 →
      select_diversified_pair stdFn top_funds investment_amount = top_funds) ∧
    (2 ≤ top_funds.length →
      (select_diversified_pair stdFn top_funds investment_amount).length = 2 ∧
      ∀ g ∈ select_diversified_pair stdFn top_funds investment_amount,
        ∃ s ∈ top_funds, g = allocate investment_amount s) := by
  constructor
  · intro hlt
    unfold select_diversified_pair
    rw [if_pos hlt]
  · intro hge
    match top_funds, hge with
    | best :: r :: t, _ =>
      have hne : r :: t ≠ [] := by simp
      rw [select_pair_cons stdFn investment_amount best (r :: t) hne]
      have hj : np_argmax ((r :: t).map (fun f =>
          div_score (shortlistStd stdFn (best :: r :: t)) f.fund best.fund)) <
            (r :: t).length := by
        have h0 := np_argmax_lt_length ((r :: t).map (fun f =>
          div_score (shortlistStd stdFn (best :: r :: t)) f.fund best.fund)) (by simp)
        simpa using h0
      refine ⟨rfl, ?_⟩
      intro g hg
      rcases List.mem_pair.mp hg with hg1 | hg2
      · exact ⟨best, List.mem_cons_self _ _, hg1⟩
      · exact ⟨_, List.mem_cons_of_mem best (getD_mem_of_lt _ best _ hj), hg2⟩

/-- Witness for C10 at a concrete one-element and (via the same application) the
hypotheses discharged at a two-element shortlist. -/
theorem c10_witness :
    (2 ≤ ([sA, sB] : List Scored).length) ∧
    (select_diversified_pair (fun _ => 0) [sA, sB] 1000).length = 2 ∧
    (∀ g ∈ select_diversified_pair (fun _ => 0) [sA, sB] 1000,
      ∃ s ∈ ([sA, sB] : List Scored), g = allocate 1000 s) :=
  ⟨by simp,
   ((c10_selector_shape (fun _ => 0) 1000 [sA, sB]).2 (by simp)).1,
   ((c10_selector_shape (fun _ => 0) 1000 [sA, sB]).2 (by simp)).2⟩

/-- C3: when the filtered candidate set has fewer than 2 funds, the pipeline
short-circuits: for every predictor whatsoever the same structured error plan is
returned (so no prediction or scoring influences the result), with status "error"
and no recommendations. -/
theorem c3_insufficient_candidates (df : List Fund) (hs : List Nat)
    (stdFn : List ℚ → ℚ) (investment_amount : ℚ) (horizon : Nat)
    (risk_tolerance : String) (category_preference : Option String) (fs : List Fund)
    (hhor : horizon ∈ hs)
    (hfilter : (filterCandidates df investment_amount horizon risk_tolerance
        category_preference).2 = Except.ok fs)
    (hlen : fs.length < 2) :
    ∀ predict : Nat → Fund → Option ℚ,
      generate_investment_plan ⟨df, hs, predict, stdFn⟩ investment_amount horizon
          risk_tolerance category_preference =
        Except.ok { status := "error", message := insufficientFundsMsg,
                    recommendations := none } := by
  intro predict
  unfold generate_investment_plan get_diversified_recommendations
  rw [if_pos hhor, hfilter]
  simp [hlen]

/-- Witness for C3 on a one-fund universe: a single affordable moderate-risk fund
leaves a filtered set of size 1, so the plan is the structured error result. -/
theorem c3_witness :
    ((1 : Nat) ∈ ([1, 3, 5] : List Nat) ∧
     (filterCandidates [fA] 5000 1 "moderate" none).2 = Except.ok [fA] ∧
     ([fA] : List Fund).length < 2) ∧
    generate_investment_plan ⟨[fA], [1, 3, 5], fun _ _ => some 5, fun _ => 0⟩
        5000 1 "moderate" none =
      Except.ok { status := "error", message := insufficientFundsMsg,
                  recommendations := none } :=
  ⟨⟨by decide, by with_unfolding_all rfl, by decide⟩,
   c3_insufficient_candidates [fA] [1, 3, 5] (fun _ => 0) 5000 1 "moderate" none [fA]
     (by decide) (by with_unfolding_all rfl) (by decide) (fun _ _ => some 5)⟩

/-- C7: filtering is monotonic.  Narrowing the risk range never increases the
candidate count, and adding a category constraint where none was given never
increases the candidate count. -/
theorem c7_filter_monotonic (df : List Fund) (investment_amount : ℚ) (horizon : Nat)
    (lo hi lo2 hi2 : ℤ) (c : String) (cp : Option String)
    (hlo : lo ≤ lo2) (hhi : hi2 ≤ hi) :
    (candidateSet df investment_amount horizon lo2 hi2 cp).length ≤
      (candidateSet df investment_amount horizon lo hi cp).length ∧
    (candidateSet df investment_amount horizon lo hi (some c)).length ≤
      (candidateSet df investment_amount horizon lo hi none).length := by
  constructor
  · have hrisk : List.Sublist
        (riskFilter lo2 hi2 (affordFilter investment_amount df))
        (riskFilter lo hi (affordFilter investment_amount df)) := by
      apply List.monotone_filter_right
      intro a ha
      simp only [Bool.and_eq_true, decide_eq_true_eq] at ha ⊢
      exact ⟨hlo.trans ha.1, ha.2.trans hhi⟩
    exact ((applyCategoryFilter_mono cp _ _ hrisk).filter _).length_le
  · have hcat : List.Sublist
        (applyCategoryFilter (some c) (riskFilter lo hi (affordFilter investment_amount df)))
        (applyCategoryFilter none (riskFilter lo hi (affordFilter investment_amount df))) :=
      applyCategoryFilter_sublist (some c) _
    exact (hcat.filter _).length_le

/-- Witness for C7: narrowing moderate risk [3,5] to [4,4] and adding an Equity
constraint on the three-fund universe. -/
theorem c7_witness :
    ((3 : ℤ) ≤ 4 ∧ (4 : ℤ) ≤ 5) ∧
    (candidateSet [fA, fB, fC] 5000 1 4 4 none).length ≤
      (candidateSet [fA, fB, fC] 5000 1 3 5 none).length ∧
    (candidateSet [fA, fB, fC] 5000 1 3 5 (some "Equity")).length ≤
      (candidateSet [fA, fB, fC] 5000 1 3 5 none).length :=
  ⟨⟨by decide, by decide⟩,
   (c7_filter_monotonic [fA, fB, fC] 5000 1 3 5 4 4 "Equity" none
      (by decide) (by decide)).1,
   (c7_filter_monotonic [fA, fB, fC] 5000 1 3 5 4 4 "Equity" none
      (by decide) (by decide)).2⟩

/-- Counterexample to C5 as stated: on the unknown label "extreme" the pipeline does
raise the lookup error, but NOT before any filtering of the universe occurs — the
trace of filtering operations performed before the raise is nonempty (the
affordability filter of source line 283 has already been applied). -/
theorem c5_counterexample :
    (filterCandidates [fA] 5000 1 "extreme" none).2 =
      Except.error (PyError.keyError "extreme") ∧
    (filterCandidates [fA] 5000 1 "extreme" none).1 ≠ [] := by
  constructor
  · with_unfolding_all rfl
  · decide

/-- C5 amended: for every risk-tolerance label outside
{conservative, moderate, aggressive}, the risk-range lookup raises a `KeyError`
(the concrete form of the spec's `ConfigurationError`) which propagates out of
`generate_investment_plan`; the raise happens at the risk-mapping step, after the
affordability filter has been applied but before any risk, category or completeness
filtering. -/
theorem c5_amended_keyerror (df : List Fund) (hs : List Nat)
    (predict : Nat → Fund → Option ℚ) (stdFn : List ℚ → ℚ)
    (investment_amount : ℚ) (horizon : Nat) (label : String)
    (category_preference : Option String)
    (h1 : label ≠ "conservative") (h2 : label ≠ "moderate") (h3 : label ≠ "aggressive")
    (hhor : horizon ∈ hs) :
    (filterCandidates df investment_amount horizon label category_preference).1 =
      [FilterStage.afford] ∧
    (filterCandidates df investment_amount horizon label category_preference).2 =
      Except.error (PyError.keyError label) ∧
    generate_investment_plan ⟨df, hs, predict, stdFn⟩ investment_amount horizon
        label category_preference =
      Except.error (PyError.keyError label) := by
  have hrm : risk_mapping label = none := by
    simp [risk_mapping, h1, h2, h3]
  refine ⟨?_, ?_, ?_⟩
  · simp [filterCandidates, hrm]
  · simp [filterCandidates, hrm]
  · unfold generate_investment_plan get_diversified_recommendations
    rw [if_pos hhor]
    simp [filterCandidates, hrm]

/-- Witness for the amended C5 at the concrete label "extreme". -/
theorem c5_witness :
    (("extreme" : String) ≠ "conservative" ∧ ("extreme" : String) ≠ "moderate" ∧
     ("extreme" : String) ≠ "aggressive" ∧ (1 : Nat) ∈ ([1, 3, 5] : List Nat)) ∧
    (filterCandidates [fA] 5000 1 "extreme" none).1 = [FilterStage.afford] ∧
    (filterCandidates [fA] 5000 1 "extreme" none).2 =
      Except.error (PyError.keyError "extreme") ∧
    generate_investment_plan ⟨[fA], [1, 3, 5], fun _ _ => some 5, fun _ => 0⟩
        5000 1 "extreme" none =
      Except.error (PyError.keyError "extreme") :=
  ⟨⟨by decide, by decide, by decide, by decide⟩,
   c5_amended_keyerror [fA] [1, 3, 5] (fun _ _ => some 5) (fun _ => 0) 5000 1
     "extreme" none (by decide) (by decide) (by decide) (by decide)⟩

/-- C6: a candidate whose prediction raises is skipped individually (it never
appears among the scored candidates) while every candidate with a successful
prediction is kept with its predicted value, so the batch does not fail; and when
fewer than 2 predictions succeed on a filtered set of size ≥ 2, the pipeline
recovers the failure into a structured error result instead of throwing. -/
theorem c6_prediction_skip_and_failure :
    (∀ (pr : Fund → Option ℚ) (funds : List Fund) (f : Fund), f ∈ funds →
      pr f = none → f ∉ (scoreCandidates pr funds).map Scored.fund) ∧
    (∀ (pr : Fund → Option ℚ) (funds : List Fund) (f : Fund) (p : ℚ), f ∈ funds →
      pr f = some p →
      ∃ s ∈ scoreCandidates pr funds, s.fund = f ∧ s.predicted_return = p) ∧
    (∀ (df : List Fund) (hs : List Nat) (predict : Nat → Fund → Option ℚ)
       (stdFn : List ℚ → ℚ) (investment_amount : ℚ) (horizon : Nat)
       (risk_tolerance : String) (category_preference : Option String)
       (fs : List Fund),
      horizon ∈ hs →
      (filterCandidates df investment_amount horizon risk_tolerance
          category_preference).2 = Except.ok fs →
      2 ≤ fs.length →
      (scoreCandidates (predict horizon) fs).length < 2 →
      generate_investment_plan ⟨df, hs, predict, stdFn⟩ investment_amount horizon
          risk_tolerance category_preference =
        Except.ok { status := "error", message := predictionFailureMsg,
                    recommendations := none }) := by
  refine ⟨?_, ?_, ?_⟩
  · intro pr funds f hf hnone hmem
    obtain ⟨s, hsmem, hsf⟩ := List.mem_map.mp hmem
    obtain ⟨a, _, hmap⟩ := List.mem_filterMap.mp hsmem
    obtain ⟨p, hp, hmk⟩ := Option.map_eq_some'.mp hmap
    have haf : a = f := by
      subst hmk
      exact hsf
    rw [haf] at hp
    rw [hnone] at hp
    cases hp
  · intro pr funds f p hf hp
    refine ⟨{ fund := f, predicted_return := p
              comprehensive_score :=
                comprehensive_score_of p f.risk_adjusted_score f.stability_score
                  f.cost_efficiency f.rating }, ?_, rfl, rfl⟩
    exact List.mem_filterMap.mpr ⟨f, hf, by rw [hp]; rfl⟩
  · intro df hs predict stdFn investment_amount horizon risk_tolerance
      category_preference fs hhor hfilter hge hlt
    unfold generate_investment_plan get_diversified_recommendations
    rw [if_pos hhor, hfilter]
    have hnot : ¬ fs.length < 2 := by omega
    simp [hnot, hlt]

/-- Witness for C6: the always-raising predictor on the three-fund universe gives
zero successful predictions, and the plan is the structured prediction-failure
error. -/
theorem c6_witness :
    ((1 : Nat) ∈ ([1, 3, 5] : List Nat) ∧
     (filterCandidates [fA, fB, fC] 5000 1 "moderate" none).2 =
       Except.ok [fA, fB, fC] ∧
     2 ≤ ([fA, fB, fC] : List Fund).length ∧
     (scoreCandidates ((fun _ _ => none : Nat → Fund → Option ℚ) 1)
        [fA, fB, fC]).length < 2) ∧
    generate_investment_plan ⟨[fA, fB, fC], [1, 3, 5], fun _ _ => none, fun _ => 0⟩
        5000 1 "moderate" none =
      Except.ok { status := "error", message := predictionFailureMsg,
                  recommendations := none } :=
  ⟨⟨by decide, by with_unfolding_all rfl, by decide, by with_unfolding_all decide⟩,
   c6_prediction_skip_and_failure.2.2 [fA, fB, fC] [1, 3, 5] (fun _ _ => none)
     (fun _ => 0) 5000 1 "moderate" none [fA, fB, fC]
     (by decide) (by with_unfolding_all rfl) (by decide) (by with_unfolding_all decide)⟩

/-- C9: in the three-fund scenario (two AMC "X" funds with risks 3 and 4, one AMC "Y"
fund with risk 5, identical composite scores), a moderate-risk request with no
category filter returns success with the AMC "Y" fund as the complementary second
pick over the same-AMC alternative. -/
theorem c9_cross_amc_scenario :
    (generate_investment_plan ctx9 5000 1 "moderate" none).map
        (fun p => (p.status,
          p.recommendations.map (fun l =>
            l.map (fun fi => (fi.scheme_name, fi.amc_name))))) =
      Except.ok ("success", some [("Alpha", "X"), ("Gamma", "Y")]) := by
  with_unfolding_all rfl

/-- C4: every plan with status "success" carries exactly two funds with distinct
scheme names, each allocated half the investment amount at 50.0 percent, the two
percentages summing to 100.0 (assuming scheme names are unique in the universe, the
data-model invariant). -/
theorem c4_success_pair (df : List Fund) (hs : List Nat)
    (predict : Nat → Fund → Option ℚ) (stdFn : List ℚ → ℚ)
    (investment_amount : ℚ) (horizon : Nat) (risk_tolerance : String)
    (category_preference : Option String) (plan : InvestmentPlan)
    (hnodup : (df.map Fund.scheme_name).Nodup)
    (hok : generate_investment_plan ⟨df, hs, predict, stdFn⟩ investment_amount horizon
        risk_tolerance category_preference = Except.ok plan)
    (hsucc : plan.status = "success") :
    ∃ a b : FundInfo, plan.recommendations = some [a, b] ∧
      a.scheme_name ≠ b.scheme_name ∧
      a.suggested_allocation = investment_amount / 2 ∧
      b.suggested_allocation = investment_amount / 2 ∧
      a.allocation_percentage = 50 ∧ b.allocation_percentage = 50 ∧
      a.allocation_percentage + b.allocation_percentage = 100 := by
  cases hrec : get_diversified_recommendations ⟨df, hs, predict, stdFn⟩
      investment_amount horizon risk_tolerance category_preference 10 with
  | error e =>
    simp only [generate_investment_plan, hrec] at hok
    exact Except.noConfusion hok
  | ok pr =>
    obtain ⟨recs, msg⟩ := pr
    simp only [generate_investment_plan, hrec] at hok
    by_cases hemp : recs.isEmpty
    · rw [if_pos hemp] at hok
      have hplan := Except.ok.inj hok
      rw [← hplan] at hsucc
      simp at hsucc
    · rw [if_neg hemp] at hok
      have hplan := Except.ok.inj hok
      -- analyze the successful recommendation result
      by_cases hhor : horizon ∈ hs
      case neg =>
        simp only [get_diversified_recommendations] at hrec
        rw [if_neg hhor] at hrec
        exact Except.noConfusion hrec
      case pos =>
        simp only [get_diversified_recommendations] at hrec
        rw [if_pos hhor] at hrec
        cases hfc : (filterCandidates df investment_amount horizon risk_tolerance
            category_preference).2 with
        | error e =>
          simp only [hfc] at hrec
          exact Except.noConfusion hrec
        | ok df_filtered =>
          simp only [hfc] at hrec
          by_cases hflt : df_filtered.length < 2
          · rw [if_pos hflt] at hrec
            have h1 := Except.ok.inj hrec
            have hr1 : ([] : List Scored) = recs := congrArg Prod.fst h1
            rw [← hr1] at hemp
            simp at hemp
          · rw [if_neg hflt] at hrec
            by_cases hslt :
                (scoreCandidates (predict horizon) df_filtered).length < 2
            · rw [if_pos hslt] at hrec
              have h1 := Except.ok.inj hrec
              have hr1 : ([] : List Scored) = recs := congrArg Prod.fst h1
              rw [← hr1] at hemp
              simp at hemp
            · rw [if_neg hslt] at hrec
              have h1 := Except.ok.inj hrec
              have hrecs :
                  select_diversified_pair stdFn
                      (nlargestByScore 10 (scoreCandidates (predict horizon) df_filtered))
                      investment_amount = recs :=
                congrArg Prod.fst h1
              have hscored2 : 2 ≤ (scoreCandidates (predict horizon) df_filtered).length := by
                omega
              have hpermlen :
                  ((scoreCandidates (predict horizon) df_filtered).foldl
                      (fun a x => insertDesc x a) []).length =
                    (scoreCandidates (predict horizon) df_filtered).length :=
                (nlargest_perm _).length_eq
              have htoplen : 2 ≤
                  (nlargestByScore 10 (scoreCandidates (predict horizon) df_filtered)).length := by
                unfold nlargestByScore
                rw [List.length_take, hpermlen]
                omega
              obtain ⟨best, r, t, htop⟩ :
                  ∃ a b t, nlargestByScore 10 (scoreCandidates (predict horizon) df_filtered) =
                    a :: b :: t := by
                cases htf : nlargestByScore 10 (scoreCandidates (predict horizon) df_filtered) with
                | nil =>
                  rw [htf] at htoplen
                  simp at htoplen
                | cons a rest =>
                  cases rest with
                  | nil =>
                    rw [htf] at htoplen
                    simp at htoplen
                  | cons b t => exact ⟨a, b, t, rfl⟩
              have hdfsub : List.Sublist df_filtered df := by
                cases hrm : risk_mapping risk_tolerance with
                | none =>
                  simp only [filterCandidates, hrm] at hfc
                  exact Except.noConfusion hfc
                | some p =>
                  obtain ⟨lo, hi⟩ := p
                  simp only [filterCandidates, hrm] at hfc
                  have h2 := Except.ok.inj hfc
                  rw [← h2]
                  exact candidateSet_sublist df investment_amount horizon lo hi
                    category_preference
              have hn1 : (df_filtered.map Fund.scheme_name).Nodup :=
                hnodup.sublist (hdfsub.map Fund.scheme_name)
              have hsub2 := scoreCandidates_fund_sublist (predict horizon) df_filtered
              have hn2 : ((scoreCandidates (predict horizon) df_filtered).map
                  (fun s => s.fund.scheme_name)).Nodup := by
                have h3 := hn1.sublist (hsub2.map Fund.scheme_name)
                rw [List.map_map] at h3
                exact h3
              have hpermmap := (nlargest_perm (scoreCandidates (predict horizon)
                  df_filtered)).map (fun s : Scored => s.fund.scheme_name)
              have hn3 : (((scoreCandidates (predict horizon) df_filtered).foldl
                  (fun a x => insertDesc x a) []).map
                    (fun s => s.fund.scheme_name)).Nodup :=
                hpermmap.nodup_iff.mpr hn2
              have hn4 : ((nlargestByScore 10 (scoreCandidates (predict horizon)
                  df_filtered)).map (fun s => s.fund.scheme_name)).Nodup := by
                unfold nlargestByScore
                exact hn3.sublist ((List.take_sublist _ _).map _)
              have hne : r :: t ≠ [] := by simp
              rw [htop] at hrecs
              rw [select_pair_cons stdFn investment_amount best (r :: t) hne] at hrecs
              set j := np_argmax ((r :: t).map (fun f =>
                div_score (shortlistStd stdFn (best :: r :: t)) f.fund best.fund)) with hjdef
              have hj : j < (r :: t).length := by
                have h0 := np_argmax_lt_length ((r :: t).map (fun f =>
                  div_score (shortlistStd stdFn (best :: r :: t)) f.fund best.fund)) (by simp)
                simpa [hjdef] using h0
              have hsecond_mem : (r :: t).getD j best ∈ (r :: t) :=
                getD_mem_of_lt _ best j hj
              rw [htop] at hn4
              have hn5 : best.fund.scheme_name ∉
                  ((r :: t).map (fun s => s.fund.scheme_name)) := by
                rw [List.map_cons] at hn4
                exact (List.nodup_cons.mp hn4).1
              have hnamene : best.fund.scheme_name ≠
                  ((r :: t).getD j best).fund.scheme_name := by
                intro heq
                apply hn5
                rw [heq]
                exact List.mem_map_of_mem _ hsecond_mem
              rw [← hplan]
              refine ⟨mkFundInfo 1 horizon (allocate investment_amount best),
                      mkFundInfo 2 horizon
                        (allocate investment_amount ((r :: t).getD j best)),
                      ?_, ?_, rfl, rfl, rfl, rfl, ?_⟩
              · rw [← hrecs]
                rfl
              · exact hnamene
              · show (50 : ℚ) + 50 = 100
                norm_num

/-- Scored candidate for `fC` under the constant predictor returning 5. -/
def sC : Scored :=
  { fund := fC, predicted_return := 5
    comprehensive_score :=
      comprehensive_score_of 5 fC.risk_adjusted_score fC.stability_score
        fC.cost_efficiency fC.rating }

/-- The successful plan produced on the three-fund scenario universe. -/
def planW : InvestmentPlan :=
  { status := "success", message := selectedMsg 3
    recommendations := some [mkFundInfo 1 1 (allocate 5000 sA),
                             mkFundInfo 2 1 (allocate 5000 sC)] }

/-- Witness for C4 on the concrete three-fund scenario plan. -/
theorem c4_witness :
    ((([fA, fB, fC] : List Fund).map Fund.scheme_name).Nodup ∧
     generate_investment_plan ⟨[fA, fB, fC], [1, 3, 5], fun _ _ => some 5, fun _ => 0⟩
         5000 1 "moderate" none = Except.ok planW ∧
     planW.status = "success") ∧
    (∃ a b : FundInfo, planW.recommendations = some [a, b] ∧
      a.scheme_name ≠ b.scheme_name ∧
      a.suggested_allocation = 5000 / 2 ∧
      b.suggested_allocation = 5000 / 2 ∧
      a.allocation_percentage = 50 ∧ b.allocation_percentage = 50 ∧
      a.allocation_percentage + b.allocation_percentage = 100) :=
  ⟨⟨by decide, by with_unfolding_all rfl, rfl⟩,
   c4_success_pair [fA, fB, fC] [1, 3, 5] (fun _ _ => some 5) (fun _ => 0) 5000 1
     "moderate" none planW (by decide) (by with_unfolding_all rfl) rfl⟩
